import Mathlib

/-!
Verification of the pytfa thermodynamic-model formulation engine
(`pytfa/core/tmodel.py`) and the Chebyshev-center analysis
(`pytfa/analysis/chebyshev.py`).

The Python code is shallowly embedded: machine floats become rationals,
transcendental functions (`log`, `10 ** x`, the Euclidean norm) become
abstract function parameters, and the optlang solver becomes an abstract
primal-assignment oracle.  Expressions built with sympy become explicit
linear-combination lists over typed variable identifiers.
-/

set_option maxHeartbeats 1000000

namespace PyTFA

/-- Kinds of optimization variables emitted by the formulation engine
(mirrors `pytfa.optim.variables` classes plus the native flux variables). -/
inductive VarKind where
  | DeltaG
  | DeltaGstd
  | ForwardUseVariable
  | BackwardUseVariable
  | LogConcentration
  | ThermoDisplacement
  | FluxForward
  | FluxReverse
  | ChebyshevRadius
deriving DecidableEq, Repr

/-- Kinds of constraints emitted by the formulation engine
(mirrors `pytfa.optim.constraints` classes; `LogConcentration` appears
because `_convert_metabolite` uses that class as a constraint kind for
the potential coupling). -/
inductive ConsKind where
  | SimultaneousUse
  | NegativeDeltaG
  | ForwardDeltaGCoupling
  | BackwardDeltaGCoupling
  | ForwardDirectionCoupling
  | BackwardDirectionCoupling
  | DisplacementCoupling
  | LogConcentration
deriving DecidableEq, Repr

/-- A variable identifier: its kind together with the id of the hook
(reaction id, metabolite id, or a model-level name). -/
structure VarId where
  kind : VarKind
  hook : String
deriving DecidableEq, Repr

/-- A linear expression: a list of (variable, coefficient) terms, the
shallow embedding of the sympy expressions built in `_convert_reaction`. -/
abbrev LinExpr := List (VarId × ℚ)

/-- Value of a linear expression under a primal assignment. -/
def LinExpr.eval (σ : VarId → ℚ) (e : LinExpr) : ℚ :=
  (e.map (fun p => σ p.1 * p.2)).sum

/-- Total coefficient of a variable in a linear expression
(the sympy `expr.coeff(x)` method). -/
def LinExpr.coeff (e : LinExpr) (v : VarId) : ℚ :=
  ((e.filter (fun p => p.1 == v)).map Prod.snd).sum

/-- The variables occurring in a linear expression with a nonzero total
coefficient (the sympy `expr.free_symbols` set after simplification). -/
def LinExpr.freeSymbols (e : LinExpr) : List VarId :=
  ((e.map Prod.fst).dedup).filter (fun v => e.coeff v != 0)

/-- A variable registered through `ThermoModel.add_variable`: kind, hook id
and the bounds passed as keyword arguments (`none` when not passed). -/
structure EmittedVar where
  kind : VarKind
  hook : String
  lb : Option ℚ := none
  ub : Option ℚ := none
deriving DecidableEq, Repr

/-- A constraint registered through `ThermoModel.add_constraint`. -/
structure EmittedCons where
  kind : ConsKind
  hook : String
  expr : LinExpr
  lb : Option ℚ := none
  ub : Option ℚ := none
deriving DecidableEq, Repr

/-- A primal assignment satisfies a constraint when the expression value
lies within the registered bounds (absent bound meaning unbounded). -/
def EmittedCons.sat (σ : VarId → ℚ) (c : EmittedCons) : Bool :=
  (match c.lb with
   | none => true
   | some l => decide (l ≤ c.expr.eval σ)) &&
  (match c.ub with
   | none => true
   | some u => decide (c.expr.eval σ ≤ u))

/-- The big-M constants from `pytfa.utils.numerics` (module not under
verification, so the values stay symbolic; defaults are the published
pytfa values). -/
structure Numerics where
  BIGM : ℚ := 1000
  BIGM_THERMO : ℚ := 1000
  BIGM_DG : ℚ := 10 ^ 7
  BIGM_P : ℚ := 10 ^ 4
deriving DecidableEq, Repr

/-- A metabolite with its compartment, annotation and thermo record
(`met.thermo` fields as computed by `_prepare_metabolite`). -/
structure Metabolite where
  id : String
  formula : String
  seed_id : Option String := none
  compartment : String := "c"
  deltaGf_std : ℚ := 0
  deltaGf_tr : ℚ := 0
  deltaGf_err : ℚ := 0
deriving DecidableEq, Repr

/-- Modelled from the spec: one entry of the `find_transported_mets`
result (function lives in `pytfa/core/utils.py`, not under `src/`):
the reactant-side and product-side copies of a transported metabolite
and the transported amount. -/
structure TransEntry where
  reactant : Metabolite
  product : Metabolite
  coeff : ℚ
deriving DecidableEq, Repr

/-- A reaction: stoichiometry, flux bounds, and the results of the
helper checks.  `balance` is modelled from the spec
(`check_reaction_balance` is in `pytfa/core/utils.py`, not under `src/`;
the spec gives statuses `ok | missing atoms | drain flux`), `isTrans`
is modelled from the spec (`check_transport_reaction`, same module), and
`transported` is the modelled `find_transported_mets` output. -/
structure Reaction where
  id : String
  mets : List (Metabolite × ℚ)
  lower_bound : ℚ := 0
  upper_bound : ℚ := 0
  balance : String := "balanced"
  isTrans : Bool := false
  transported : List TransEntry := []
deriving DecidableEq, Repr

/-- The cobra `Reaction.reactants` property: metabolites with negative
stoichiometric coefficient. -/
def Reaction.reactants (r : Reaction) : List Metabolite :=
  (r.mets.filter (fun p => decide (p.2 < 0))).map Prod.fst

/-- The per-reaction thermo record written by `_prepare_reaction`
(the `reaction.thermo` dict). -/
structure ThermoRec where
  computed : Bool
  isTrans : Bool
  deltaGR : ℚ
  deltaGRerr : ℚ
deriving DecidableEq, Repr

/-- The skip condition of `_prepare_reaction` (tmodel.py lines 194-197):
drain, bad thermo values, too many participants, or failed balance. -/
def prepareSkipCond (nm : Numerics) (r : Reaction) : Bool :=
  let NotDrain : Bool := r.mets.length != 1
  let correctThermoValues : Bool :=
    !(r.mets.any (fun p => decide ((9 : ℚ)/10 * nm.BIGM_DG < p.1.deltaGf_std)))
  !NotDrain || !correctThermoValues || decide (100 ≤ r.mets.length)
    || r.balance == "missing atoms" || r.balance == "drain flux"

/-- Embedding of `ThermoModel._prepare_reaction` (tmodel.py lines
155-234).  `calcDGtpt_rhs` and `calcDGR_cues_err` stand for the
thermodynamic estimators of `pytfa/core/thermo.py` (not under `src/`):
the first is the transport right-hand side, the second the cue-based
error estimate whose value overwrites the accumulated per-metabolite
error. -/
def _prepare_reaction (nm : Numerics)
    (calcDGtpt_rhs calcDGR_cues_err : Reaction → ℚ) (r : Reaction) :
    ThermoRec :=
  if prepareSkipCond nm r then
    { computed := false, isTrans := r.isTrans,
      deltaGR := nm.BIGM_DG, deltaGRerr := nm.BIGM_DG }
  else
    let DeltaGrxn : ℚ :=
      if r.isTrans then calcDGtpt_rhs r
      else
        ((r.mets.filter (fun p =>
            p.1.formula != "H"
            || (p.1.seed_id.isSome && p.1.seed_id != some "cpd00067"))).map
          (fun p => p.2 * p.1.deltaGf_tr)).sum
    let DeltaGRerr : ℚ := calcDGR_cues_err r
    { computed := true, isTrans := r.isTrans,
      deltaGR := DeltaGrxn,
      deltaGRerr := if DeltaGRerr = 0 then 2 else DeltaGRerr }

/-- Sample metabolite used to exercise the definitions on closed inputs. -/
def met_g6p : Metabolite :=
  { id := "g6p_c", formula := "C6H11O9P", seed_id := some "cpd00079",
    compartment := "c", deltaGf_std := -429, deltaGf_tr := -431,
    deltaGf_err := 2 }

/-- Sample drain reaction (single metabolite). -/
def rxn_drain : Reaction :=
  { id := "EX_g6p", mets := [(met_g6p, -1)],
    lower_bound := -50, upper_bound := 50 }

/-- Per-compartment data consumed from the host model
(`self.compartments[comp]`). -/
structure CompData where
  pH : ℚ
  ionicStr : ℚ
  c_min : ℚ
  c_max : ℚ
deriving DecidableEq, Repr

/-- The `LogConcentration` variable identifier of a metabolite
(the `self.LC_vars[met]` entry). -/
def lcVar (m : Metabolite) : VarId := ⟨VarKind.LogConcentration, m.id⟩

/-- The error produced by the `add_potentials` branch of
`_convert_metabolite` (tmodel.py line 331): `add_variable` is called with
a third positional argument, which its `(self, kind, hook, **kwargs)`
signature rejects. -/
def typeErrorMsg : String :=
  "TypeError: add_variable takes 3 positional arguments but 4 were given"

/-- Embedding of `ThermoModel._convert_metabolite` (tmodel.py lines
284-347).  `log` stands for `math.log` and `tenPow` for `10 ** x`
(transcendental, so kept abstract); `comps` maps a compartment id to its
data. -/
def _convert_metabolite (comps : String → CompData) (log tenPow : ℚ → ℚ)
    (add_potentials : Bool) (met : Metabolite) :
    Except String (List EmittedVar × List EmittedCons) :=
  let metLConc_lb := log (comps met.compartment).c_min
  let metLConc_ub := log (comps met.compartment).c_max
  let Comp_pH := (comps met.compartment).pH
  if met.formula == "H2O" then
    Except.ok ([{ kind := VarKind.LogConcentration, hook := met.id,
                  lb := some 0, ub := some 0 }], [])
  else if met.formula == "H" then
    Except.ok ([{ kind := VarKind.LogConcentration, hook := met.id,
                  lb := some (log (tenPow (-Comp_pH))),
                  ub := some (log (tenPow (-Comp_pH))) }], [])
  else if met.seed_id == some "cpd11416" then
    Except.ok ([], [])
  else if decide (met.deltaGf_tr < 10 ^ 6) then
    if add_potentials then
      Except.error typeErrorMsg
    else
      Except.ok ([{ kind := VarKind.LogConcentration, hook := met.id,
                    lb := some metLConc_lb, ub := some metLConc_ub }], [])
  else
    Except.ok ([], [])

/-- A biomass-marker metabolite whose formula is `H2O`: the formula test
of `_convert_metabolite` fires before the biomass test. -/
def met_biomass_h2o : Metabolite :=
  { id := "bm_c", formula := "H2O", seed_id := some "cpd11416",
    compartment := "c", deltaGf_std := 0, deltaGf_tr := 0,
    deltaGf_err := 0 }

/-- Concrete compartment table used on closed inputs. -/
def comps0 : String → CompData :=
  fun _ => { pH := 7, ionicStr := 0, c_min := 1/100000, c_max := 1/50 }

/-- The `DeltaG` variable identifier of a reaction. -/
def dgVar (r : Reaction) : VarId := ⟨VarKind.DeltaG, r.id⟩

/-- The `DeltaGstd` variable identifier of a reaction. -/
def dgstdVar (r : Reaction) : VarId := ⟨VarKind.DeltaGstd, r.id⟩

/-- The `ForwardUseVariable` identifier of a reaction. -/
def fuVar (r : Reaction) : VarId := ⟨VarKind.ForwardUseVariable, r.id⟩

/-- The `BackwardUseVariable` identifier of a reaction. -/
def buVar (r : Reaction) : VarId := ⟨VarKind.BackwardUseVariable, r.id⟩

/-- The `ThermoDisplacement` variable identifier of a reaction. -/
def lngammaVar (r : Reaction) : VarId := ⟨VarKind.ThermoDisplacement, r.id⟩

/-- The native forward flux variable of a reaction
(`rxn.forward_variable`). -/
def forwardFluxVar (r : Reaction) : VarId := ⟨VarKind.FluxForward, r.id⟩

/-- The native reverse flux variable of a reaction
(`rxn.reverse_variable`). -/
def reverseFluxVar (r : Reaction) : VarId := ⟨VarKind.FluxReverse, r.id⟩

/-- tmodel.py lines 370-373: a water transport reaction is a transport
reaction with a single reactant whose seed id is `cpd00001`. -/
def H2OtRxns (r : Reaction) (th : ThermoRec) : Bool :=
  th.isTrans &&
    (match r.reactants with
     | [m] => m.seed_id == some "cpd00001"
     | _ => false)

/-- The `LC_TransMet` terms of `_convert_reaction` (tmodel.py lines
417-428): for each transported metabolite, log-concentration terms for
the reactant and product copies, signed by direction, skipping protons. -/
def lcTransTerms (RT : ℚ) (r : Reaction) : LinExpr :=
  r.transported.flatMap (fun t =>
    (if t.reactant.formula != "H"
      then [(lcVar t.reactant, RT * t.coeff * (-1))] else []) ++
    (if t.product.formula != "H"
      then [(lcVar t.product, RT * t.coeff * 1)] else []))

/-- Add `d` to the stoichiometric coefficient of the metabolite with id
`mid` (the `chem_stoich[trans[type]] += ...` updates). -/
def updStoich (s : List (Metabolite × ℚ)) (mid : String) (d : ℚ) :
    List (Metabolite × ℚ) :=
  s.map (fun p => if p.1.id == mid then (p.1, p.2 + d) else p)

/-- The chemical stoichiometry of a transport reaction (tmodel.py lines
414-432): reaction stoichiometry plus the transport coefficient for
reactants, minus it for products, with zero entries dropped. -/
def chemStoich (r : Reaction) : List (Metabolite × ℚ) :=
  (r.transported.foldl
    (fun s t =>
      updStoich (updStoich s t.reactant.id (t.coeff * 1))
        t.product.id (t.coeff * (-1)))
    r.mets).filter (fun p => p.2 != 0)

/-- The `LC_ChemMet` terms of the transport branch (tmodel.py lines
434-437). -/
def lcChemTransTerms (RT : ℚ) (r : Reaction) : LinExpr :=
  (chemStoich r).flatMap (fun p =>
    if p.1.formula != "H" && p.1.formula != "H2O"
      then [(lcVar p.1, RT * p.2)] else [])

/-- The `LC_ChemMet` terms of the plain chemical branch (tmodel.py lines
456-463). -/
def lcChemPlainTerms (RT : ℚ) (r : Reaction) : LinExpr :=
  r.mets.flatMap (fun p =>
    if p.1.formula != "H" && p.1.formula != "H2O"
      then [(lcVar p.1, RT * p.2)] else [])

/-- The left-hand side of the `NegativeDeltaG` constraint
(tmodel.py line 475): `DGoR - DGR + LC_TransMet + LC_ChemMet`. -/
def negativeDeltaG_expr (RT : ℚ) (add_potentials : Bool)
    (r : Reaction) (th : ThermoRec) : LinExpr :=
  [(dgstdVar r, 1), (dgVar r, -1)] ++
    (if th.isTrans then lcTransTerms RT r ++ lcChemTransTerms RT r
     else if add_potentials then [] else lcChemPlainTerms RT r)

/-- The `NegativeDeltaG` equality constraint (tmodel.py line 476). -/
def negativeDeltaGCons (RT : ℚ) (add_potentials : Bool)
    (r : Reaction) (th : ThermoRec) : EmittedCons :=
  { kind := ConsKind.NegativeDeltaG, hook := r.id,
    expr := negativeDeltaG_expr RT add_potentials r th,
    lb := some 0, ub := some 0 }

/-- The `DisplacementCoupling` equality constraint (tmodel.py lines
484-489): `lngamma - (1/RT) * DGR = 0`. -/
def displacementCouplingCons (RT : ℚ) (r : Reaction) : EmittedCons :=
  { kind := ConsKind.DisplacementCoupling, hook := r.id,
    expr := [(lngammaVar r, 1), (dgVar r, -(1/RT))],
    lb := some 0, ub := some 0 }

/-- The `ForwardDeltaGCoupling` constraint (tmodel.py lines 496-500):
`DGR + FU * BIGM_THERMO ≤ BIGM_THERMO - epsilon`. -/
def forwardDeltaGCouplingCons (nm : Numerics) (epsilon : ℚ)
    (r : Reaction) : EmittedCons :=
  { kind := ConsKind.ForwardDeltaGCoupling, hook := r.id,
    expr := [(dgVar r, 1), (fuVar r, nm.BIGM_THERMO)],
    ub := some (nm.BIGM_THERMO - epsilon) }

/-- The `BackwardDeltaGCoupling` constraint (tmodel.py lines 505-509):
`BU * BIGM_THERMO - DGR ≤ BIGM_THERMO - epsilon`. -/
def backwardDeltaGCouplingCons (nm : Numerics) (epsilon : ℚ)
    (r : Reaction) : EmittedCons :=
  { kind := ConsKind.BackwardDeltaGCoupling, hook := r.id,
    expr := [(buVar r, nm.BIGM_THERMO), (dgVar r, -1)],
    ub := some (nm.BIGM_THERMO - epsilon) }

/-- The `SimultaneousUse` constraint (tmodel.py line 528):
`FU + BU ∈ [0, 1]`. -/
def simultaneousUseCons (r : Reaction) : EmittedCons :=
  { kind := ConsKind.SimultaneousUse, hook := r.id,
    expr := [(fuVar r, 1), (buVar r, 1)], lb := some 0, ub := some 1 }

/-- The `ForwardDirectionCoupling` constraint (tmodel.py lines 532-534):
`F - FU * BIGM ≤ 0`. -/
def forwardDirectionCouplingCons (nm : Numerics) (r : Reaction) :
    EmittedCons :=
  { kind := ConsKind.ForwardDirectionCoupling, hook := r.id,
    expr := [(forwardFluxVar r, 1), (fuVar r, -nm.BIGM)], ub := some 0 }

/-- The `BackwardDirectionCoupling` constraint (tmodel.py lines 537-539):
`R - BU * BIGM ≤ 0`. -/
def backwardDirectionCouplingCons (nm : Numerics) (r : Reaction) :
    EmittedCons :=
  { kind := ConsKind.BackwardDirectionCoupling, hook := r.id,
    expr := [(reverseFluxVar r, 1), (buVar r, -nm.BIGM)], ub := some 0 }

/-- The `DeltaG` variable with its bounds (tmodel.py lines 364-365, 388). -/
def dgVarE (nm : Numerics) (r : Reaction) : EmittedVar :=
  { kind := VarKind.DeltaG, hook := r.id,
    lb := some (-nm.BIGM_THERMO), ub := some nm.BIGM_THERMO }

/-- The `DeltaGstd` variable with its bounds (tmodel.py lines 391-395). -/
def dgstdVarE (r : Reaction) (th : ThermoRec) : EmittedVar :=
  { kind := VarKind.DeltaGstd, hook := r.id,
    lb := some (th.deltaGR - th.deltaGRerr),
    ub := some (th.deltaGR + th.deltaGRerr) }

/-- The `ThermoDisplacement` variable with its bounds (tmodel.py lines
479-482). -/
def lngammaVarE (nm : Numerics) (r : Reaction) : EmittedVar :=
  { kind := VarKind.ThermoDisplacement, hook := r.id,
    lb := some (-nm.BIGM_P), ub := some nm.BIGM_P }

/-- The `ForwardUseVariable` (tmodel.py lines 495, 520; no bounds are
passed at the call site). -/
def fuVarE (r : Reaction) : EmittedVar :=
  { kind := VarKind.ForwardUseVariable, hook := r.id }

/-- The `BackwardUseVariable` (tmodel.py lines 503, 521). -/
def buVarE (r : Reaction) : EmittedVar :=
  { kind := VarKind.BackwardUseVariable, hook := r.id }

/-- Embedding of `ThermoModel._convert_reaction` (tmodel.py lines
349-539): the variables and constraints registered for one reaction, in
registration order. -/
def _convert_reaction (nm : Numerics) (RT epsilon : ℚ)
    (add_potentials add_displacement : Bool)
    (r : Reaction) (th : ThermoRec) :
    List EmittedVar × List EmittedCons :=
  if th.computed && !H2OtRxns r th then
    ([dgVarE nm r, dgstdVarE r th]
       ++ (if add_displacement then [lngammaVarE nm r] else [])
       ++ [fuVarE r, buVarE r],
     [negativeDeltaGCons RT add_potentials r th]
       ++ (if add_displacement then [displacementCouplingCons RT r] else [])
       ++ [forwardDeltaGCouplingCons nm epsilon r,
           backwardDeltaGCouplingCons nm epsilon r,
           simultaneousUseCons r,
           forwardDirectionCouplingCons nm r,
           backwardDirectionCouplingCons nm r])
  else
    ([fuVarE r, buVarE r],
     [simultaneousUseCons r,
      forwardDirectionCouplingCons nm r,
      backwardDirectionCouplingCons nm r])

/-- Sample product metabolite of the internal reaction. -/
def met_f6p : Metabolite :=
  { id := "f6p_c", formula := "C6H11O9P", seed_id := some "cpd00072",
    compartment := "c", deltaGf_std := -426, deltaGf_tr := -428,
    deltaGf_err := 2 }

/-- Sample internal (non-transport, thermo-constrained) reaction. -/
def rxn_pgi : Reaction :=
  { id := "PGI", mets := [(met_g6p, -1), (met_f6p, 1)],
    lower_bound := -50, upper_bound := 50 }

/-- Thermo record of the sample reaction, as `prepare` would leave it. -/
def th_pgi : ThermoRec :=
  { computed := true, isTrans := false, deltaGR := 3, deltaGRerr := 2 }

/-- A primal assignment with the forward indicator on and a negative
`DeltaG`. -/
def primal_pgi : VarId → ℚ := fun v =>
  if v = dgVar rxn_pgi then -1
  else if v = fuVar rxn_pgi then 1
  else 0

/-- A primal assignment satisfying the emitted displacement coupling with
`lnGamma = DeltaG = 1` at `RT = 1`. -/
def primal_disp : VarId → ℚ := fun v =>
  if v = lngammaVar rxn_pgi then 1
  else if v = dgVar rxn_pgi then 1
  else 0

/-- A primal assignment with `lnGamma = 3`, `DeltaG = 6` at `RT = 2`. -/
def primal_disp2 : VarId → ℚ := fun v =>
  if v = lngammaVar rxn_pgi then 3
  else if v = dgVar rxn_pgi then 6
  else 0

/-- The thermo model as consumed by `convert`: compartment data, the
metabolites, and the reactions paired with the thermo records that
`prepare` left on them. -/
structure TModel where
  compartments : String → CompData
  metabolites : List Metabolite
  reactions : List (Reaction × ThermoRec)

/-- The error raised by the bounds check of `convert`
(tmodel.py line 566). -/
def boundsErrorMsg : String := "flux bounds too wide or big M not big enough"

/-- The metabolite phase of `convert` (tmodel.py lines 597-598):
`_convert_metabolite` over every metabolite, concatenating emissions and
propagating the first error. -/
def convertMets (comps : String → CompData) (log tenPow : ℚ → ℚ)
    (add_potentials : Bool) :
    List Metabolite → Except String (List EmittedVar × List EmittedCons)
  | [] => Except.ok ([], [])
  | m :: ms =>
    match _convert_metabolite comps log tenPow add_potentials m with
    | Except.error e => Except.error e
    | Except.ok (v, c) =>
      match convertMets comps log tenPow add_potentials ms with
      | Except.error e => Except.error e
      | Except.ok (vs, cs) => Except.ok (v ++ vs, c ++ cs)

/-- Embedding of `ThermoModel.convert` (tmodel.py lines 541-614): the
flux-bounds check over all reactions runs before any emission and raises
when violated; then every metabolite and every reaction is converted. -/
def convert (nm : Numerics) (RT epsilon : ℚ) (log tenPow : ℚ → ℚ)
    (add_potentials add_displacement : Bool) (m : TModel) :
    Except String (List EmittedVar × List EmittedCons) :=
  if m.reactions.any (fun p =>
      decide (p.1.lower_bound < -nm.BIGM)
        || decide (nm.BIGM < p.1.upper_bound)) then
    Except.error boundsErrorMsg
  else
    match convertMets m.compartments log tenPow add_potentials
        m.metabolites with
    | Except.error e => Except.error e
    | Except.ok (mv, mc) =>
      let rOut := m.reactions.map (fun p =>
        _convert_reaction nm RT epsilon add_potentials add_displacement
          p.1 p.2)
      Except.ok (mv ++ (rOut.map Prod.fst).flatten,
                 mc ++ (rOut.map Prod.snd).flatten)

/-- The reaction of the C7 counterexample: lower bound exactly `-BIGM`. -/
def rxn_atBound : Reaction :=
  { id := "EX_glc", mets := [(met_g6p, -1)],
    lower_bound := -1000, upper_bound := 0 }

/-- Thermo record of the C7 counterexample reaction (a drain, so
`computed = false`). -/
def th_atBound : ThermoRec :=
  { computed := false, isTrans := false,
    deltaGR := 10 ^ 7, deltaGRerr := 10 ^ 7 }

/-- The model of the C7 counterexample. -/
def model_atBound : TModel :=
  { compartments := comps0, metabolites := [],
    reactions := [(rxn_atBound, th_atBound)] }

/-- An optlang-level constraint as seen by `chebyshev_center`
(chebyshev.py): its pytfa class name, its expression and its bounds. -/
structure OptCons where
  kind : String
  name : String
  expr : LinExpr
  lb : Option ℚ := none
  ub : Option ℚ := none
deriving DecidableEq, Repr

/-- Embedding of `is_inequality` (chebyshev.py lines 29-37): a constraint
with at least one absent bound. -/
def is_inequality (c : OptCons) : Bool := c.lb.isNone || c.ub.isNone

/-- The Chebyshev radius variable identifier (`id_ = "radius"`,
chebyshev.py line 69). -/
def radiusVarId : VarId := ⟨VarKind.ChebyshevRadius, "radius"⟩

/-- The Chebyshev radius variable with its bounds (chebyshev.py lines
67-72): `lb = 0`, `ub = big_m`. -/
def chebyshevRadiusVar (big_m : ℚ) : EmittedVar :=
  { kind := VarKind.ChebyshevRadius, hook := "radius",
    lb := some 0, ub := some big_m }

/-- The target variables found in a constraint
(`set(cons.expr.free_symbols).intersection(vars)`, chebyshev.py
line 88). -/
def varIntersection (targets : List VarId) (c : OptCons) : List VarId :=
  c.expr.freeSymbols.filter (fun v => targets.contains v)

/-- The norm of the coefficient vector restricted to the target
variables of a constraint (chebyshev.py lines 95-96); `enorm` stands for
the Euclidean norm `numpy.linalg.norm(·, ord=2)`. -/
def chebyshevNorm (enorm : List ℚ → ℚ) (targets : List VarId)
    (c : OptCons) : ℚ :=
  enorm ((varIntersection targets c).map (fun v => c.expr.coeff v))

/-- The selection test of the scan loop (chebyshev.py lines 83-89): the
kind is not excluded and is included, the constraint is an inequality,
and it mentions at least one target variable. -/
def consQualifies (incl excl : List String) (targets : List VarId)
    (c : OptCons) : Bool :=
  !(excl.contains c.kind) && incl.contains c.kind && is_inequality c
    && !(varIntersection targets c).isEmpty

/-- The edit loop body (chebyshev.py lines 103-114): a qualifying
constraint has `norm * r` added to its expression when its lower bound
is absent, subtracted when (the lower bound is present and) its upper
bound is absent; everything else is untouched. -/
def chebyshevEditCons (enorm : List ℚ → ℚ) (incl excl : List String)
    (targets : List VarId) (c : OptCons) : OptCons :=
  if consQualifies incl excl targets c then
    let a_sq := chebyshevNorm enorm targets c
    if c.lb.isNone then
      { c with expr := c.expr ++ [(radiusVarId, a_sq)] }
    else if c.ub.isNone then
      { c with expr := c.expr ++ [(radiusVarId, -a_sq)] }
    else c
  else c

/-- The error raised at chebyshev.py line 146: `warn` is neither
imported nor defined anywhere in the module, so reaching the
radius-near-bound branch raises a NameError instead of warning. -/
def nameErrorMsg : String := "NameError: name warn is not defined"

/-- Embedding of `chebyshev_center` (chebyshev.py lines 40-150): add the
radius variable, rewrite the qualifying constraints, hand the edited
model to the solver (`solve`, the abstract optimizer returning primal
values), and return the primal values of the target variables — unless
the radius primal is within the optimality tolerance of `big_m`, in
which case line 146 is reached and the undefined name `warn` raises. -/
def chebyshev_center (enorm : List ℚ → ℚ)
    (solve : List OptCons → VarId → ℚ) (opt_tol : ℚ)
    (conss : List OptCons) (targets : List VarId) (big_m : ℚ)
    (incl excl : List String) : Except String (List ℚ) :=
  let edited := conss.map (chebyshevEditCons enorm incl excl targets)
  let σ := solve edited
  if (chebyshevRadiusVar big_m).ub.getD 0 - σ radiusVarId ≤ opt_tol then
    Except.error nameErrorMsg
  else
    Except.ok (targets.map σ)

/-- A concrete target variable for the Chebyshev witnesses. -/
def vX : VarId := ⟨VarKind.LogConcentration, "x_c"⟩

/-- A concrete `≤`-form inequality mentioning the target variable. -/
def consX : OptCons :=
  { kind := "ForwardDirectionCoupling", name := "UF_r1",
    expr := [(vX, 2)], lb := none, ub := some 0 }

/-- A solver oracle that drives the radius to the top of its box. -/
def solveAtTop : List OptCons → VarId → ℚ := fun _ _ => 1000

/-- The skip condition, as a proposition. -/
theorem prepareSkipCond_iff (nm : Numerics) (r : Reaction) :
    prepareSkipCond nm r = true ↔
      (r.mets.length = 1
        ∨ (∃ p ∈ r.mets, (9 : ℚ)/10 * nm.BIGM_DG < p.1.deltaGf_std)
        ∨ 100 ≤ r.mets.length
        ∨ r.balance = "missing atoms"
        ∨ r.balance = "drain flux") := by
  simp [prepareSkipCond, List.any_eq_true, or_assoc]

/-- C4: after `prepare`, the thermo record of a reaction has `computed = false`
exactly when the reaction has a single metabolite, or some participating
metabolite standard Gibbs energy of formation exceeds `0.9 * BIGM_DG`
(the no-usable-data sentinel range), or the reaction has at least 100
participating metabolites, or the balance check reported
`missing atoms` or `drain flux`; in every other case `computed = true`. -/
theorem C4_computed_flag (nm : Numerics) (f g : Reaction → ℚ) (r : Reaction) :
    (_prepare_reaction nm f g r).computed = false ↔
      (r.mets.length = 1
        ∨ (∃ p ∈ r.mets, (9 : ℚ)/10 * nm.BIGM_DG < p.1.deltaGf_std)
        ∨ 100 ≤ r.mets.length
        ∨ r.balance = "missing atoms"
        ∨ r.balance = "drain flux") := by
  rw [← prepareSkipCond_iff nm r]
  unfold _prepare_reaction
  by_cases h : prepareSkipCond nm r = true
  · rw [if_pos h]
    simp [h]
  · rw [if_neg h]
    simp [h]

/-- C4 witness: on the concrete drain reaction `rxn_drain` the
characterization of the `computed` flag evaluates as stated. -/
theorem C4_computed_flag_witness :
    (_prepare_reaction {} (fun _ => 0) (fun _ => 0) rxn_drain).computed = false ↔
      (rxn_drain.mets.length = 1
        ∨ (∃ p ∈ rxn_drain.mets,
            (9 : ℚ)/10 * Numerics.BIGM_DG {} < p.1.deltaGf_std)
        ∨ 100 ≤ rxn_drain.mets.length
        ∨ rxn_drain.balance = "missing atoms"
        ∨ rxn_drain.balance = "drain flux") :=
  C4_computed_flag {} (fun _ => 0) (fun _ => 0) rxn_drain

/-- C9 counterexample: a metabolite annotated with the biomass marker
`cpd11416` whose formula is `H2O` does receive a `LogConcentration`
variable (fixed at `[0,0]`), because the `H2O` branch has priority over
the biomass branch; the claim says a biomass-marked metabolite receives
no thermo variables at all. -/
theorem C9_counterexample :
    met_biomass_h2o.seed_id = some "cpd11416" ∧
    _convert_metabolite comps0 id id false met_biomass_h2o =
      Except.ok ([{ kind := VarKind.LogConcentration, hook := "bm_c",
                    lb := some 0, ub := some 0 }], []) :=
  ⟨rfl, rfl⟩

/-- C9 amended: the metabolite cases apply in the order of the source
`elif` chain: `H2O` first, then `H`, then the biomass marker, then the
usable-ΔGf test.  A biomass-marked metabolite receives no thermo
variables only when its formula is neither `H2O` nor `H`, and a
sentinel-ΔGf metabolite receives none only when additionally it is not
biomass-marked; all remaining metabolites receive a `LogConcentration`
variable bounded by the logarithms of the compartment concentration
bounds. -/
theorem C9_amended (comps : String → CompData) (log tenPow : ℚ → ℚ)
    (met : Metabolite) :
    (met.formula = "H2O" →
      _convert_metabolite comps log tenPow false met =
        Except.ok ([{ kind := VarKind.LogConcentration, hook := met.id,
                      lb := some 0, ub := some 0 }], [])) ∧
    (met.formula ≠ "H2O" → met.formula = "H" →
      _convert_metabolite comps log tenPow false met =
        Except.ok ([{ kind := VarKind.LogConcentration, hook := met.id,
                      lb := some (log (tenPow (-(comps met.compartment).pH))),
                      ub := some (log (tenPow (-(comps met.compartment).pH))) }],
                   [])) ∧
    (met.formula ≠ "H2O" → met.formula ≠ "H" →
      met.seed_id = some "cpd11416" →
      _convert_metabolite comps log tenPow false met = Except.ok ([], [])) ∧
    (met.formula ≠ "H2O" → met.formula ≠ "H" →
      met.seed_id ≠ some "cpd11416" → (10 : ℚ) ^ 6 ≤ met.deltaGf_tr →
      _convert_metabolite comps log tenPow false met = Except.ok ([], [])) ∧
    (met.formula ≠ "H2O" → met.formula ≠ "H" →
      met.seed_id ≠ some "cpd11416" → met.deltaGf_tr < (10 : ℚ) ^ 6 →
      _convert_metabolite comps log tenPow false met =
        Except.ok ([{ kind := VarKind.LogConcentration, hook := met.id,
                      lb := some (log (comps met.compartment).c_min),
                      ub := some (log (comps met.compartment).c_max) }], [])) := by
  refine ⟨?_, ?_, ?_, ?_, ?_⟩
  · intro h1
    simp [_convert_metabolite, h1]
  · intro h1 h2
    simp [_convert_metabolite, h1, h2]
  · intro h1 h2 h3
    simp [_convert_metabolite, h1, h2, h3]
  · intro h1 h2 h3 h4
    simp [_convert_metabolite, h1, h2, h3, not_lt.mpr h4]
  · intro h1 h2 h3 h4
    simp [_convert_metabolite, h1, h2, h3, h4]

/-- C9 amended witness: the ordinary-metabolite clause evaluated on the
concrete metabolite `met_g6p`. -/
theorem C9_amended_witness :
    met_g6p.formula ≠ "H2O" ∧ met_g6p.formula ≠ "H" ∧
    met_g6p.seed_id ≠ some "cpd11416" ∧
    met_g6p.deltaGf_tr < (10 : ℚ) ^ 6 ∧
    _convert_metabolite comps0 id id false met_g6p =
      Except.ok ([{ kind := VarKind.LogConcentration, hook := met_g6p.id,
                    lb := some (id (comps0 met_g6p.compartment).c_min),
                    ub := some (id (comps0 met_g6p.compartment).c_max) }], []) :=
  ⟨by decide, by decide, by decide, by decide,
   (C9_amended comps0 id id met_g6p).2.2.2.2
     (by decide) (by decide) (by decide) (by decide)⟩

/-- C1: for every reaction with `computed = true` that is not a
single-reactant water transport, `_convert_reaction` emits the
`ForwardDeltaGCoupling` constraint `DeltaG + BIGM_THERMO * FU ≤
BIGM_THERMO - epsilon` and the `BackwardDeltaGCoupling` constraint
`BIGM_THERMO * BU - DeltaG ≤ BIGM_THERMO - epsilon`, with `epsilon` the
solver feasibility tolerance; any assignment satisfying them has
`FU = 1 → DeltaG ≤ -epsilon` and `BU = 1 → DeltaG ≥ epsilon`. -/
theorem C1_deltaG_coupling (nm : Numerics) (RT epsilon : ℚ) (aP aD : Bool)
    (r : Reaction) (th : ThermoRec) (σ : VarId → ℚ)
    (hc : th.computed = true) (hw : H2OtRxns r th = false)
    (hf : (forwardDeltaGCouplingCons nm epsilon r).sat σ = true)
    (hb : (backwardDeltaGCouplingCons nm epsilon r).sat σ = true) :
    forwardDeltaGCouplingCons nm epsilon r ∈
      (_convert_reaction nm RT epsilon aP aD r th).2 ∧
    backwardDeltaGCouplingCons nm epsilon r ∈
      (_convert_reaction nm RT epsilon aP aD r th).2 ∧
    (σ (fuVar r) = 1 → σ (dgVar r) ≤ -epsilon) ∧
    (σ (buVar r) = 1 → epsilon ≤ σ (dgVar r)) := by
  have hcond : (th.computed && !H2OtRxns r th) = true := by
    simp [hc, hw]
  refine ⟨?_, ?_, ?_, ?_⟩
  · cases aD <;> simp [_convert_reaction, hcond]
  · cases aD <;> simp [_convert_reaction, hcond]
  · intro hfu
    have h := hf
    simp [EmittedCons.sat, forwardDeltaGCouplingCons, LinExpr.eval, hfu] at h
    linarith
  · intro hbu
    have h := hb
    simp [EmittedCons.sat, backwardDeltaGCouplingCons, LinExpr.eval, hbu] at h
    linarith

/-- C1 witness: the coupling theorem evaluated on the concrete internal
reaction `rxn_pgi` with tolerance `1/1000`. -/
theorem C1_deltaG_coupling_witness :
    th_pgi.computed = true ∧ H2OtRxns rxn_pgi th_pgi = false ∧
    (forwardDeltaGCouplingCons {} (1/1000) rxn_pgi).sat primal_pgi = true ∧
    (backwardDeltaGCouplingCons {} (1/1000) rxn_pgi).sat primal_pgi = true ∧
    (forwardDeltaGCouplingCons {} (1/1000) rxn_pgi ∈
       (_convert_reaction {} 1 (1/1000) false false rxn_pgi th_pgi).2 ∧
     backwardDeltaGCouplingCons {} (1/1000) rxn_pgi ∈
       (_convert_reaction {} 1 (1/1000) false false rxn_pgi th_pgi).2 ∧
     (primal_pgi (fuVar rxn_pgi) = 1 →
        primal_pgi (dgVar rxn_pgi) ≤ -(1/1000)) ∧
     (primal_pgi (buVar rxn_pgi) = 1 →
        (1/1000 : ℚ) ≤ primal_pgi (dgVar rxn_pgi))) :=
  ⟨rfl, by decide, by with_unfolding_all rfl, by with_unfolding_all rfl,
   C1_deltaG_coupling {} 1 (1/1000) false false rxn_pgi th_pgi primal_pgi
     rfl (by decide) (by with_unfolding_all rfl) (by with_unfolding_all rfl)⟩

/-- C2: every reaction taking the thermo-constrained branch gets a
`DeltaG` variable bounded by `[-BIGM_THERMO, BIGM_THERMO]`, a `DeltaGstd`
variable bounded by `deltaGR ± deltaGRerr`, and exactly one
`NegativeDeltaG` constraint `DeltaGstd - DeltaG + (transport terms) +
(chemical terms)` with lower and upper bound both `0`. -/
theorem C2_thermo_branch_emission (nm : Numerics) (RT epsilon : ℚ)
    (aD : Bool) (r : Reaction) (th : ThermoRec)
    (hc : th.computed = true) (hw : H2OtRxns r th = false) :
    ({ kind := VarKind.DeltaG, hook := r.id,
       lb := some (-nm.BIGM_THERMO), ub := some nm.BIGM_THERMO } :
      EmittedVar) ∈ (_convert_reaction nm RT epsilon false aD r th).1 ∧
    ({ kind := VarKind.DeltaGstd, hook := r.id,
       lb := some (th.deltaGR - th.deltaGRerr),
       ub := some (th.deltaGR + th.deltaGRerr) } :
      EmittedVar) ∈ (_convert_reaction nm RT epsilon false aD r th).1 ∧
    ((_convert_reaction nm RT epsilon false aD r th).2.filter
        (fun c => c.kind == ConsKind.NegativeDeltaG))
      = [negativeDeltaGCons RT false r th] ∧
    negativeDeltaGCons RT false r th =
      { kind := ConsKind.NegativeDeltaG, hook := r.id,
        expr := [(dgstdVar r, 1), (dgVar r, -1)] ++
          (if th.isTrans then lcTransTerms RT r ++ lcChemTransTerms RT r
           else lcChemPlainTerms RT r),
        lb := some 0, ub := some 0 } := by
  have hcond : (th.computed && !H2OtRxns r th) = true := by
    simp [hc, hw]
  refine ⟨?_, ?_, ?_, ?_⟩
  · cases aD <;> simp [_convert_reaction, hcond, dgVarE]
  · cases aD <;> simp [_convert_reaction, hcond, dgstdVarE]
  · cases aD <;>
      simp [_convert_reaction, hcond, negativeDeltaGCons,
        displacementCouplingCons, forwardDeltaGCouplingCons,
        backwardDeltaGCouplingCons, simultaneousUseCons,
        forwardDirectionCouplingCons, backwardDirectionCouplingCons]
  · simp [negativeDeltaGCons, negativeDeltaG_expr]

/-- C2 witness: the thermo-branch emission theorem evaluated on the
concrete internal reaction `rxn_pgi`. -/
theorem C2_thermo_branch_emission_witness :
    th_pgi.computed = true ∧ H2OtRxns rxn_pgi th_pgi = false ∧
    (({ kind := VarKind.DeltaG, hook := rxn_pgi.id,
        lb := some (-(Numerics.BIGM_THERMO {})),
        ub := some (Numerics.BIGM_THERMO {}) } : EmittedVar) ∈
       (_convert_reaction {} 1 (1/1000) false false rxn_pgi th_pgi).1 ∧
     ({ kind := VarKind.DeltaGstd, hook := rxn_pgi.id,
        lb := some (th_pgi.deltaGR - th_pgi.deltaGRerr),
        ub := some (th_pgi.deltaGR + th_pgi.deltaGRerr) } : EmittedVar) ∈
       (_convert_reaction {} 1 (1/1000) false false rxn_pgi th_pgi).1 ∧
     ((_convert_reaction {} 1 (1/1000) false false rxn_pgi th_pgi).2.filter
         (fun c => c.kind == ConsKind.NegativeDeltaG))
       = [negativeDeltaGCons 1 false rxn_pgi th_pgi] ∧
     negativeDeltaGCons 1 false rxn_pgi th_pgi =
       { kind := ConsKind.NegativeDeltaG, hook := rxn_pgi.id,
         expr := [(dgstdVar rxn_pgi, 1), (dgVar rxn_pgi, -1)] ++
           (if th_pgi.isTrans
            then lcTransTerms 1 rxn_pgi ++ lcChemTransTerms 1 rxn_pgi
            else lcChemPlainTerms 1 rxn_pgi),
         lb := some 0, ub := some 0 }) :=
  ⟨rfl, by decide,
   C2_thermo_branch_emission {} 1 (1/1000) false rxn_pgi th_pgi
     rfl (by decide)⟩

/-- C3: every reaction, whichever branch it takes, gets exactly one
`ForwardUseVariable`, one `BackwardUseVariable`, one `SimultaneousUse`
constraint `FU + BU ∈ [0,1]`, one `ForwardDirectionCoupling`
`F - BIGM * FU ≤ 0`, and one `BackwardDirectionCoupling`
`R - BIGM * BU ≤ 0`. -/
theorem C3_direction_machinery (nm : Numerics) (RT epsilon : ℚ)
    (aP aD : Bool) (r : Reaction) (th : ThermoRec) :
    ((_convert_reaction nm RT epsilon aP aD r th).1.filter
        (fun v => v.kind == VarKind.ForwardUseVariable)) = [fuVarE r] ∧
    ((_convert_reaction nm RT epsilon aP aD r th).1.filter
        (fun v => v.kind == VarKind.BackwardUseVariable)) = [buVarE r] ∧
    ((_convert_reaction nm RT epsilon aP aD r th).2.filter
        (fun c => c.kind == ConsKind.SimultaneousUse))
      = [simultaneousUseCons r] ∧
    ((_convert_reaction nm RT epsilon aP aD r th).2.filter
        (fun c => c.kind == ConsKind.ForwardDirectionCoupling))
      = [forwardDirectionCouplingCons nm r] ∧
    ((_convert_reaction nm RT epsilon aP aD r th).2.filter
        (fun c => c.kind == ConsKind.BackwardDirectionCoupling))
      = [backwardDirectionCouplingCons nm r] ∧
    simultaneousUseCons r =
      { kind := ConsKind.SimultaneousUse, hook := r.id,
        expr := [(fuVar r, 1), (buVar r, 1)], lb := some 0, ub := some 1 } ∧
    forwardDirectionCouplingCons nm r =
      { kind := ConsKind.ForwardDirectionCoupling, hook := r.id,
        expr := [(forwardFluxVar r, 1), (fuVar r, -nm.BIGM)],
        lb := none, ub := some 0 } ∧
    backwardDirectionCouplingCons nm r =
      { kind := ConsKind.BackwardDirectionCoupling, hook := r.id,
        expr := [(reverseFluxVar r, 1), (buVar r, -nm.BIGM)],
        lb := none, ub := some 0 } := by
  by_cases hcond : (th.computed && !H2OtRxns r th) = true <;>
    cases aD <;>
      refine ⟨?_, ?_, ?_, ?_, ?_, rfl, rfl, rfl⟩ <;>
        simp [_convert_reaction, hcond, dgVarE, dgstdVarE, lngammaVarE,
          fuVarE, buVarE, negativeDeltaGCons, displacementCouplingCons,
          forwardDeltaGCouplingCons, backwardDeltaGCouplingCons,
          simultaneousUseCons, forwardDirectionCouplingCons,
          backwardDirectionCouplingCons]

/-- C8 counterexample: with `RT = 1`, the emitted `DisplacementCoupling`
constraint is satisfied by an assignment with `lnGamma = 1` and
`DeltaG = 1`, although `-DeltaG/RT = -1 ≠ 1`: the constraint enforces
`lnGamma = +DeltaG/RT` (tmodel.py line 484, `expr = lngamma - 1/RT *
DGR`), not `lnGamma = -DeltaG/RT` as the claim states. -/
theorem C8_counterexample :
    ((_convert_reaction {} 1 (1/1000) false true rxn_pgi th_pgi).2.filter
        (fun c => c.kind == ConsKind.DisplacementCoupling))
      = [displacementCouplingCons 1 rxn_pgi] ∧
    (displacementCouplingCons 1 rxn_pgi).sat primal_disp = true ∧
    primal_disp (lngammaVar rxn_pgi) ≠
      -(primal_disp (dgVar rxn_pgi)) / 1 :=
  ⟨by with_unfolding_all rfl, by with_unfolding_all rfl,
   of_decide_eq_true (by with_unfolding_all rfl)⟩

/-- C8 amended: when `add_displacement` is requested, every
thermo-constrained reaction gets a `ThermoDisplacement` variable bounded
by `[-BIGM_P, BIGM_P]` and a `DisplacementCoupling` equality constraint
enforcing `lnGamma = +DeltaG/RT` (the sign is positive, matching the
source and its comment, not negative as claimed). -/
theorem C8_amended_displacement (nm : Numerics) (RT epsilon : ℚ)
    (aP : Bool) (r : Reaction) (th : ThermoRec) (σ : VarId → ℚ)
    (hc : th.computed = true) (hw : H2OtRxns r th = false) (hRT : RT ≠ 0)
    (hs : (displacementCouplingCons RT r).sat σ = true) :
    ({ kind := VarKind.ThermoDisplacement, hook := r.id,
       lb := some (-nm.BIGM_P), ub := some nm.BIGM_P } : EmittedVar) ∈
      (_convert_reaction nm RT epsilon aP true r th).1 ∧
    displacementCouplingCons RT r ∈
      (_convert_reaction nm RT epsilon aP true r th).2 ∧
    σ (lngammaVar r) = σ (dgVar r) / RT := by
  have hcond : (th.computed && !H2OtRxns r th) = true := by
    simp [hc, hw]
  refine ⟨?_, ?_, ?_⟩
  · simp [_convert_reaction, hcond, lngammaVarE]
  · simp [_convert_reaction, hcond]
  · have h := hs
    simp [EmittedCons.sat, displacementCouplingCons, LinExpr.eval] at h
    obtain ⟨h1, h2⟩ := h
    rw [le_antisymm h2 h1, div_eq_mul_inv]

/-- C8 amended witness: the displacement theorem evaluated on the
concrete reaction `rxn_pgi` at `RT = 2`. -/
theorem C8_amended_displacement_witness :
    th_pgi.computed = true ∧ H2OtRxns rxn_pgi th_pgi = false ∧
    (2 : ℚ) ≠ 0 ∧
    (displacementCouplingCons 2 rxn_pgi).sat primal_disp2 = true ∧
    (({ kind := VarKind.ThermoDisplacement, hook := rxn_pgi.id,
        lb := some (-(Numerics.BIGM_P {})),
        ub := some (Numerics.BIGM_P {}) } : EmittedVar) ∈
       (_convert_reaction {} 2 (1/1000) false true rxn_pgi th_pgi).1 ∧
     displacementCouplingCons 2 rxn_pgi ∈
       (_convert_reaction {} 2 (1/1000) false true rxn_pgi th_pgi).2 ∧
     primal_disp2 (lngammaVar rxn_pgi) =
       primal_disp2 (dgVar rxn_pgi) / 2) :=
  ⟨rfl, by decide, by decide, by with_unfolding_all rfl,
   C8_amended_displacement {} 2 (1/1000) false rxn_pgi th_pgi primal_disp2
     rfl (by decide) (by decide) (by with_unfolding_all rfl)⟩

/-- The only error `_convert_metabolite` can produce is the
`add_potentials` TypeError. -/
theorem convert_metabolite_error_eq (comps : String → CompData)
    (log tenPow : ℚ → ℚ) (aP : Bool) (met : Metabolite) (e : String)
    (h : _convert_metabolite comps log tenPow aP met = Except.error e) :
    e = typeErrorMsg := by
  unfold _convert_metabolite at h
  repeat' split at h
  all_goals simp_all

/-- The only error the metabolite phase can produce is the
`add_potentials` TypeError. -/
theorem convertMets_error_eq (comps : String → CompData)
    (log tenPow : ℚ → ℚ) (aP : Bool) :
    ∀ (ms : List Metabolite) (e : String),
      convertMets comps log tenPow aP ms = Except.error e →
        e = typeErrorMsg
  | [], e => by simp [convertMets]
  | m :: ms, e => by
    unfold convertMets
    cases hm : _convert_metabolite comps log tenPow aP m with
    | error e1 =>
      intro h
      simp only [Except.error.injEq] at h
      subst h
      exact convert_metabolite_error_eq comps log tenPow aP m e1 hm
    | ok vc =>
      cases hms : convertMets comps log tenPow aP ms with
      | error e2 =>
        intro h
        simp only [Except.error.injEq] at h
        subst h
        exact convertMets_error_eq comps log tenPow aP ms e2 hms
      | ok vcs => simp

/-- C7 amended: `convert` raises the flux-bounds error, before emitting
any variable or constraint, exactly when some reaction has
`lower_bound < -BIGM` or `upper_bound > BIGM`; bounds equal to `±BIGM`
pass the check (the source comparison is non-strict containment, not the
strict containment the claim states). -/
theorem C7_amended_bounds_check (nm : Numerics) (RT epsilon : ℚ)
    (log tenPow : ℚ → ℚ) (aP aD : Bool) (m : TModel) :
    convert nm RT epsilon log tenPow aP aD m =
        Except.error boundsErrorMsg ↔
      ∃ p ∈ m.reactions,
        p.1.lower_bound < -nm.BIGM ∨ nm.BIGM < p.1.upper_bound := by
  unfold convert
  by_cases h : (m.reactions.any (fun p =>
      decide (p.1.lower_bound < -nm.BIGM)
        || decide (nm.BIGM < p.1.upper_bound))) = true
  · rw [if_pos h]
    simp only [true_iff, eq_self_iff_true]
    simpa [List.any_eq_true] using h
  · rw [if_neg h]
    constructor
    · intro hc
      exfalso
      cases hm : convertMets m.compartments log tenPow aP
          m.metabolites with
      | error e =>
        rw [hm] at hc
        simp only [Except.error.injEq] at hc
        have he := convertMets_error_eq m.compartments log tenPow aP
          m.metabolites e hm
        rw [he] at hc
        exact absurd hc (by decide)
      | ok vc =>
        rw [hm] at hc
        simp at hc
    · intro hex
      exact absurd (by simpa [List.any_eq_true] using hex) h

/-- C7 counterexample: a reaction whose lower bound is exactly `-BIGM`
(= -1000) is not strictly inside `[-BIGM, BIGM]`, yet `convert`
succeeds: the source check only raises on `lower_bound < -BIGM` or
`upper_bound > BIGM`. -/
theorem C7_counterexample :
    (model_atBound.reactions.map Prod.fst) = [rxn_atBound] ∧
    ¬(-(Numerics.BIGM {}) < rxn_atBound.lower_bound) ∧
    convert {} 1 (1/1000) id id false false model_atBound =
      Except.ok ([fuVarE rxn_atBound, buVarE rxn_atBound],
        [simultaneousUseCons rxn_atBound,
         forwardDirectionCouplingCons {} rxn_atBound,
         backwardDirectionCouplingCons {} rxn_atBound]) :=
  ⟨rfl, of_decide_eq_true (by with_unfolding_all rfl),
   by with_unfolding_all rfl⟩

/-- C7 amended witness: the bounds-check characterization evaluated on
the concrete model `model_atBound` (whose single reaction sits exactly
at the bound, so neither side of the equivalence holds). -/
theorem C7_amended_bounds_check_witness :
    (convert {} 1 (1/1000) id id false false model_atBound =
        Except.error boundsErrorMsg ↔
      ∃ p ∈ model_atBound.reactions,
        p.1.lower_bound < -(Numerics.BIGM {})
          ∨ (Numerics.BIGM {}) < p.1.upper_bound) :=
  C7_amended_bounds_check {} 1 (1/1000) id id false false model_atBound

/-- C5: a constraint is rewritten exactly when its kind passes the
include/exclude filter, it is an inequality, and it mentions a target
variable; the rewrite appends `+ norm * r` when the lower bound is
absent (a `≤`-form constraint) and `- norm * r` when the upper bound is
absent (a `≥`-form constraint), `norm` being the Euclidean norm of the
coefficients of the target variables appearing in it. -/
theorem C5_rewrite_characterization (enorm : List ℚ → ℚ)
    (incl excl : List String) (targets : List VarId) (c : OptCons) :
    (chebyshevEditCons enorm incl excl targets c ≠ c ↔
      consQualifies incl excl targets c = true) ∧
    (consQualifies incl excl targets c = true →
      (c.lb = none →
        chebyshevEditCons enorm incl excl targets c =
          { c with expr := c.expr ++
              [(radiusVarId, chebyshevNorm enorm targets c)] }) ∧
      (c.lb ≠ none → c.ub = none →
        chebyshevEditCons enorm incl excl targets c =
          { c with expr := c.expr ++
              [(radiusVarId, -(chebyshevNorm enorm targets c))] })) := by
  by_cases hq : consQualifies incl excl targets c = true
  · have hineq : is_inequality c = true := by
      have h := hq
      simp only [consQualifies, Bool.and_eq_true] at h
      exact h.1.2
    constructor
    · simp only [hq, iff_true]
      cases hlb : c.lb with
      | none =>
        simp only [chebyshevEditCons, hq, if_pos, hlb, Option.isNone_none,
          if_true]
        intro he
        have := congrArg OptCons.expr he
        simp at this
      | some l =>
        have hub : c.ub = none := by
          simp only [is_inequality, hlb, Option.isNone_some,
            Bool.false_or, Option.isNone_iff_eq_none] at hineq
          exact hineq
        simp only [chebyshevEditCons, hq, if_true, hlb, hub,
          Option.isNone_some, Bool.false_eq_true, if_false,
          Option.isNone_none, if_true]
        intro he
        have := congrArg OptCons.expr he
        simp at this
    · intro _
      constructor
      · intro hlb
        simp [chebyshevEditCons, hq, hlb]
      · intro hlb hub
        have hlbs : c.lb.isNone = false := by
          cases hl : c.lb with
          | none => exact absurd hl hlb
          | some l => simp
        simp [chebyshevEditCons, hq, hlbs, hub]
  · have he : chebyshevEditCons enorm incl excl targets c = c := by
      simp [chebyshevEditCons, hq]
    constructor
    · simp [he, hq]
    · intro h
      exact absurd h hq

/-- C5 witness: the characterization applied to the concrete qualifying
constraint `consX`; it is rewritten, by appending the slack term. -/
theorem C5_rewrite_characterization_witness :
    consQualifies ["ForwardDirectionCoupling"] [] [vX] consX = true ∧
    consX.lb = none ∧
    chebyshevEditCons List.sum ["ForwardDirectionCoupling"] [] [vX] consX =
      { consX with expr := consX.expr ++
          [(radiusVarId, chebyshevNorm List.sum [vX] consX)] } :=
  ⟨by with_unfolding_all rfl, rfl,
   ((C5_rewrite_characterization List.sum ["ForwardDirectionCoupling"] []
       [vX] consX).2 (by with_unfolding_all rfl)).1 rfl⟩

/-- C10: with the default empty include list, no constraint qualifies
and the edit pass leaves every constraint of the model unchanged, so the
radius variable is constrained by nothing but its own bounds; a
non-empty include list is necessary for any rewrite. -/
theorem C10_empty_include_is_noop (enorm : List ℚ → ℚ)
    (excl : List String) (targets : List VarId) (conss : List OptCons) :
    conss.filter (consQualifies [] excl targets) = [] ∧
    conss.map (chebyshevEditCons enorm [] excl targets) = conss := by
  have hq : ∀ c, consQualifies [] excl targets c = false := by
    intro c
    simp [consQualifies]
  constructor
  · induction conss with
    | nil => rfl
    | cons c cs ih => simp [List.filter_cons, hq c, ih]
  · induction conss with
    | nil => rfl
    | cons c cs ih => simp [chebyshevEditCons, hq c, ih]

/-- C6: the radius variable is created with bounds `[0, big_m]`, but
when the optimal radius lands within the optimality tolerance of
`big_m` the routine does not warn and return — it raises, because
`warn` is an undefined name in chebyshev.py (never imported); here with
`big_m = 1000`, a solver returning radius `1000`, and tolerance
`1/1000000`. -/
theorem C6_radius_bound_NameError :
    (chebyshevRadiusVar 1000).lb = some 0 ∧
    (chebyshevRadiusVar 1000).ub = some 1000 ∧
    chebyshev_center List.sum solveAtTop (1/1000000) [] [] 1000 [] [] =
      Except.error nameErrorMsg :=
  ⟨rfl, rfl, by with_unfolding_all rfl⟩

end PyTFA
